import Mathlib

/-!
Shallow embedding of `internal/store/statefulset.go` from kube-state-metrics.

Modelling conventions:
* Go `float64` metric values are modelled as `Int`: every value the file
  emits is an exact integer conversion (`float64(int32)`, `float64(int64)`,
  Unix seconds, or the constant 1).
* `metav1.Time` creation timestamps are modelled as `Option Int`
  (`none` = the zero time, for which `IsZero()` is true; `some t` = a
  non-zero time whose `Unix()` is `t`).
* Go `map[string]string` is modelled as an association list.
* The `interface{}` argument of the wrapped extractor is modelled by the
  inductive `DynObj`; the unchecked dynamic type assertion
  `obj.(*v1.StatefulSet)` panics on any other dynamic type, modelled as
  `Except.error`.
-/

namespace KSM

structure ObjectMeta where
  name : String
  namespace' : String
  generation : Int
  creationTimestamp : Option Int
  labels : List (String × String)
  annotations : List (String × String)
deriving Repr, DecidableEq

structure StatefulSetSpec where
  replicas : Option Int
deriving Repr, DecidableEq

structure StatefulSetStatus where
  observedGeneration : Int
  replicas : Int
  readyReplicas : Int
  currentReplicas : Int
  updatedReplicas : Int
  currentRevision : String
  updateRevision : String
deriving Repr, DecidableEq

structure StatefulSet where
  metadata : ObjectMeta
  spec : StatefulSetSpec
  status : StatefulSetStatus
deriving Repr, DecidableEq

structure Metric where
  labelKeys : List String
  labelValues : List String
  value : Int
deriving Repr, DecidableEq

structure Family where
  metrics : List Metric
deriving Repr, DecidableEq

inductive MetricType
  | gauge
  | counter
deriving Repr, DecidableEq

inductive DynObj
  | statefulSet (s : StatefulSet)
  | other (typeName : String)
deriving Repr, DecidableEq

structure FamilyGenerator where
  name : String
  help : String
  type : MetricType
  deprecatedVersion : String
  generateFunc : DynObj → Except String Family

def NewFamilyGenerator (name help : String) (t : MetricType)
    (deprecatedVersion : String)
    (generateFunc : DynObj → Except String Family) : FamilyGenerator :=
  { name := name, help := help, type := t,
    deprecatedVersion := deprecatedVersion, generateFunc := generateFunc }

def descStatefulSetLabelsName : String := "kube_statefulset_labels"

def descStatefulSetLabelsHelp : String :=
  "Kubernetes labels converted to Prometheus labels."

def descStatefulSetLabelsDefaultLabels : List String :=
  ["namespace", "statefulset"]

/-- `wrapStatefulSetFunc` from the source: adapts a raw extractor on
StatefulSet objects to one on dynamically typed objects, prepending the
identity label keys and the object's namespace/name values to every
emitted record.  The unchecked type assertion panics on any non-StatefulSet
dynamic type, modelled as `Except.error`. -/
def wrapStatefulSetFunc (f : StatefulSet → Family) : DynObj → Except String Family :=
  fun obj =>
    match obj with
    | DynObj.statefulSet statefulSet =>
        let metricFamily := f statefulSet
        Except.ok
          { metrics := metricFamily.metrics.map (fun m =>
              { m with
                labelKeys := descStatefulSetLabelsDefaultLabels ++ m.labelKeys,
                labelValues :=
                  [statefulSet.metadata.namespace', statefulSet.metadata.name]
                    ++ m.labelValues }) }
    | DynObj.other typeName =>
        Except.error
          ("interface conversion: interface \x7b\x7d is " ++ typeName
            ++ ", not *v1.StatefulSet")

/-- Go map lookup with the zero value `""` for absent keys. -/
def mapGetD (m : List (String × String)) (k : String) : String :=
  match m.find? (fun p => p.1 == k) with
  | some p => p.2
  | none => ""

/-- Modelled from the spec: `createLabelKeysValues`, the Label Composer
(an external collaborator of this file, section 4.4 of the spec): the
output keys are exactly the allow-list (preserving its order) and
`values[i]` is the map's value for `keys[i]`, or the empty string if
absent; keys not in the allow-list are dropped. -/
def createLabelKeysValues (labels : List (String × String))
    (allowList : List String) : List String × List String :=
  (allowList, allowList.map (mapGetD labels))

/-- Modelled from the spec: `createAnnotationKeysValues`, the Label
Composer applied to the annotation map, with the same contract as
`createLabelKeysValues`. -/
def createAnnotationKeysValues (annotations : List (String × String))
    (allowList : List String) : List String × List String :=
  (allowList, allowList.map (mapGetD annotations))

def kubeStatefulsetCreated : FamilyGenerator :=
  NewFamilyGenerator "kube_statefulset_created" "Unix creation timestamp"
    MetricType.gauge ""
    (wrapStatefulSetFunc (fun s =>
      { metrics :=
          match s.metadata.creationTimestamp with
          | none => []
          | some t => [{ labelKeys := [], labelValues := [], value := t }] }))

def kubeStatefulsetStatusReplicas : FamilyGenerator :=
  NewFamilyGenerator "kube_statefulset_status_replicas"
    "The number of replicas per StatefulSet." MetricType.gauge ""
    (wrapStatefulSetFunc (fun s =>
      { metrics := [{ labelKeys := [], labelValues := [],
                      value := s.status.replicas }] }))

def kubeStatefulsetStatusReplicasCurrent : FamilyGenerator :=
  NewFamilyGenerator "kube_statefulset_status_replicas_current"
    "The number of current replicas per StatefulSet." MetricType.gauge ""
    (wrapStatefulSetFunc (fun s =>
      { metrics := [{ labelKeys := [], labelValues := [],
                      value := s.status.currentReplicas }] }))

def kubeStatefulsetStatusReplicasReady : FamilyGenerator :=
  NewFamilyGenerator "kube_statefulset_status_replicas_ready"
    "The number of ready replicas per StatefulSet." MetricType.gauge ""
    (wrapStatefulSetFunc (fun s =>
      { metrics := [{ labelKeys := [], labelValues := [],
                      value := s.status.readyReplicas }] }))

def kubeStatefulsetStatusReplicasUpdated : FamilyGenerator :=
  NewFamilyGenerator "kube_statefulset_status_replicas_updated"
    "The number of updated replicas per StatefulSet." MetricType.gauge ""
    (wrapStatefulSetFunc (fun s =>
      { metrics := [{ labelKeys := [], labelValues := [],
                      value := s.status.updatedReplicas }] }))

def kubeStatefulsetStatusObservedGeneration : FamilyGenerator :=
  NewFamilyGenerator "kube_statefulset_status_observed_generation"
    "The generation observed by the StatefulSet controller."
    MetricType.gauge ""
    (wrapStatefulSetFunc (fun s =>
      { metrics := [{ labelKeys := [], labelValues := [],
                      value := s.status.observedGeneration }] }))

def kubeStatefulsetReplicas : FamilyGenerator :=
  NewFamilyGenerator "kube_statefulset_replicas"
    "Number of desired pods for a StatefulSet." MetricType.gauge ""
    (wrapStatefulSetFunc (fun s =>
      { metrics :=
          match s.spec.replicas with
          | none => []
          | some r => [{ labelKeys := [], labelValues := [], value := r }] }))

def kubeStatefulsetMetadataGeneration : FamilyGenerator :=
  NewFamilyGenerator "kube_statefulset_metadata_generation"
    "Sequence number representing a specific generation of the desired state for the StatefulSet."
    MetricType.gauge ""
    (wrapStatefulSetFunc (fun s =>
      { metrics := [{ labelKeys := [], labelValues := [],
                      value := s.metadata.generation }] }))

def kubeStatefulsetStatusCurrentRevision : FamilyGenerator :=
  NewFamilyGenerator "kube_statefulset_status_current_revision"
    "Indicates the version of the StatefulSet used to generate Pods in the sequence [0,currentReplicas)."
    MetricType.gauge ""
    (wrapStatefulSetFunc (fun s =>
      { metrics := [{ labelKeys := ["revision"],
                      labelValues := [s.status.currentRevision],
                      value := 1 }] }))

def kubeStatefulsetStatusUpdateRevision : FamilyGenerator :=
  NewFamilyGenerator "kube_statefulset_status_update_revision"
    "Indicates the version of the StatefulSet used to generate Pods in the sequence [replicas-updatedReplicas,replicas)"
    MetricType.gauge ""
    (wrapStatefulSetFunc (fun s =>
      { metrics := [{ labelKeys := ["revision"],
                      labelValues := [s.status.updateRevision],
                      value := 1 }] }))

def kubeStatefulsetLabels (allowLabelsList : List String) : FamilyGenerator :=
  NewFamilyGenerator descStatefulSetLabelsName descStatefulSetLabelsHelp
    MetricType.gauge ""
    (wrapStatefulSetFunc (fun s =>
      let kv := createLabelKeysValues s.metadata.labels allowLabelsList
      { metrics := [{ labelKeys := kv.1, labelValues := kv.2, value := 1 }] }))

def kubeStatefulsetAnnotations (allowAnnotationsList : List String) : FamilyGenerator :=
  NewFamilyGenerator "kube_statefulset_annotations"
    "Kubernetes annotations converted to Prometheus labels."
    MetricType.gauge ""
    (wrapStatefulSetFunc (fun s =>
      let kv := createAnnotationKeysValues s.metadata.annotations allowAnnotationsList
      { metrics := [{ labelKeys := kv.1, labelValues := kv.2, value := 1 }] }))

/-- `statefulSetMetricFamilies` from the source: the catalog builder.
The ten base families are always present; the labels and annotations
families are appended only when the respective allow-list is non-empty. -/
def statefulSetMetricFamilies (allowLabelsList allowAnnotationsList : List String) :
    List FamilyGenerator :=
  let families : List FamilyGenerator :=
    [kubeStatefulsetCreated,
     kubeStatefulsetStatusReplicas,
     kubeStatefulsetStatusReplicasCurrent,
     kubeStatefulsetStatusReplicasReady,
     kubeStatefulsetStatusReplicasUpdated,
     kubeStatefulsetStatusObservedGeneration,
     kubeStatefulsetReplicas,
     kubeStatefulsetMetadataGeneration,
     kubeStatefulsetStatusCurrentRevision,
     kubeStatefulsetStatusUpdateRevision]
  let families :=
    if allowLabelsList.length > 0 then
      families ++ [kubeStatefulsetLabels allowLabelsList]
    else families
  let families :=
    if allowAnnotationsList.length > 0 then
      families ++ [kubeStatefulsetAnnotations allowAnnotationsList]
    else families
  families

/-- The object of the end-to-end scenario: namespace `ns1`, name `web`,
creation timestamp unset, `spec.replicas` nil, `status.readyReplicas` 3. -/
def sampleSts : StatefulSet :=
  { metadata :=
      { name := "web", namespace' := "ns1", generation := 0,
        creationTimestamp := none, labels := [], annotations := [] },
    spec := { replicas := none },
    status :=
      { observedGeneration := 0, replicas := 0, readyReplicas := 3,
        currentReplicas := 0, updatedReplicas := 0,
        currentRevision := "", updateRevision := "" } }

/-- A second sample object, with a set desired-replica count. -/
def sampleSts2 : StatefulSet :=
  { metadata :=
      { name := "db", namespace' := "prod", generation := 7,
        creationTimestamp := some 1700000000, labels := [], annotations := [] },
    spec := { replicas := some 5 },
    status :=
      { observedGeneration := 7, replicas := 5, readyReplicas := 5,
        currentReplicas := 5, updatedReplicas := 5,
        currentRevision := "db-1234", updateRevision := "db-1234" } }

/-- A third sample object, carrying the label map of the allow-list
scenario: labels `{a:1, b:2, c:3}`. -/
def sampleSts3 : StatefulSet :=
  { metadata :=
      { name := "web", namespace' := "ns1", generation := 0,
        creationTimestamp := none,
        labels := [("a", "1"), ("b", "2"), ("c", "3")],
        annotations := [("a", "1"), ("b", "2"), ("c", "3")] },
    spec := { replicas := none },
    status :=
      { observedGeneration := 0, replicas := 0, readyReplicas := 0,
        currentReplicas := 0, updatedReplicas := 0,
        currentRevision := "", updateRevision := "" } }

def dummyFamilyGenerator : FamilyGenerator :=
  { name := "", help := "", type := MetricType.gauge,
    deprecatedVersion := "", generateFunc := fun _ => Except.error "" }

lemma wrapStatefulSetFunc_statefulSet (f : StatefulSet → Family) (s : StatefulSet) :
    wrapStatefulSetFunc f (DynObj.statefulSet s) =
      Except.ok
        { metrics := (f s).metrics.map (fun m =>
            { m with
              labelKeys := descStatefulSetLabelsDefaultLabels ++ m.labelKeys,
              labelValues :=
                [s.metadata.namespace', s.metadata.name] ++ m.labelValues }) } :=
  rfl

lemma mem_statefulSetMetricFamilies {g : FamilyGenerator} {l a : List String}
    (hg : g ∈ statefulSetMetricFamilies l a) :
    g = kubeStatefulsetCreated ∨
    g = kubeStatefulsetStatusReplicas ∨
    g = kubeStatefulsetStatusReplicasCurrent ∨
    g = kubeStatefulsetStatusReplicasReady ∨
    g = kubeStatefulsetStatusReplicasUpdated ∨
    g = kubeStatefulsetStatusObservedGeneration ∨
    g = kubeStatefulsetReplicas ∨
    g = kubeStatefulsetMetadataGeneration ∨
    g = kubeStatefulsetStatusCurrentRevision ∨
    g = kubeStatefulsetStatusUpdateRevision ∨
    g = kubeStatefulsetLabels l ∨
    g = kubeStatefulsetAnnotations a := by
  unfold statefulSetMetricFamilies at hg
  dsimp only at hg
  split at hg <;> split at hg <;>
    simp only [List.mem_append, List.mem_cons, List.mem_singleton,
      List.not_mem_nil, or_false] at hg <;> tauto

lemma wrap_take_two (f : StatefulSet → Family) (s : StatefulSet) (fam : Family)
    (h : wrapStatefulSetFunc f (DynObj.statefulSet s) = Except.ok fam) :
    ∀ m ∈ fam.metrics,
      m.labelKeys.take 2 = ["namespace", "statefulset"] ∧
      m.labelValues.take 2 = [s.metadata.namespace', s.metadata.name] := by
  rw [wrapStatefulSetFunc_statefulSet] at h
  injection h with h
  subst h
  intro m hm
  rcases List.mem_map.1 hm with ⟨m', _, rfl⟩
  exact ⟨rfl, rfl⟩

/-- Claim C1, counterexample: on the sample object, the always-emitting
status-replicas family (index 1 of the catalog) produces a record whose
first two label keys are `["namespace", "statefulset"]`, not
`["namespace", "name"]` as the claim states. -/
theorem claim1_counterexample :
    ((statefulSetMetricFamilies [] []).getD 1 dummyFamilyGenerator).generateFunc
        (DynObj.statefulSet sampleSts) =
      Except.ok { metrics := [{ labelKeys := ["namespace", "statefulset"],
                                labelValues := ["ns1", "web"], value := 0 }] } ∧
    (["namespace", "statefulset"] : List String).take 2 ≠ ["namespace", "name"] :=
  ⟨rfl, by decide⟩

/-- Claim C1 (amended): for every family descriptor produced by the catalog
builder and every record emitted by its wrapped extractor on any StatefulSet
object, the first two label keys are `["namespace", "statefulset"]` (not
`["namespace", "name"]`) and the first two label values are the object's
namespace and name, in that order. -/
theorem claim1_identity_prefix :
    ∀ (l a : List String), ∀ g ∈ statefulSetMetricFamilies l a,
    ∀ (s : StatefulSet) (fam : Family),
      g.generateFunc (DynObj.statefulSet s) = Except.ok fam →
      ∀ m ∈ fam.metrics,
        m.labelKeys.take 2 = ["namespace", "statefulset"] ∧
        m.labelValues.take 2 = [s.metadata.namespace', s.metadata.name] := by
  intro l a g hg s fam h
  rcases mem_statefulSetMetricFamilies hg with
    rfl | rfl | rfl | rfl | rfl | rfl | rfl | rfl | rfl | rfl | rfl | rfl <;>
  · simp only [kubeStatefulsetCreated, kubeStatefulsetStatusReplicas,
      kubeStatefulsetStatusReplicasCurrent, kubeStatefulsetStatusReplicasReady,
      kubeStatefulsetStatusReplicasUpdated, kubeStatefulsetStatusObservedGeneration,
      kubeStatefulsetReplicas, kubeStatefulsetMetadataGeneration,
      kubeStatefulsetStatusCurrentRevision, kubeStatefulsetStatusUpdateRevision,
      kubeStatefulsetLabels, kubeStatefulsetAnnotations,
      NewFamilyGenerator] at h
    exact wrap_take_two _ s fam h

/-- Claim C1 witness: the amended theorem applied to the current-revision
family on the sample object. -/
theorem claim1_identity_prefix_witness :
    (["namespace", "statefulset", "revision"] : List String).take 2 =
        ["namespace", "statefulset"] ∧
      (["ns1", "web", ""] : List String).take 2 = ["ns1", "web"] :=
  claim1_identity_prefix [] [] kubeStatefulsetStatusCurrentRevision
    (by simp [statefulSetMetricFamilies]) sampleSts
    { metrics := [{ labelKeys := ["namespace", "statefulset", "revision"],
                    labelValues := ["ns1", "web", ""], value := 1 }] }
    rfl
    { labelKeys := ["namespace", "statefulset", "revision"],
      labelValues := ["ns1", "web", ""], value := 1 }
    (by simp)

/-- Claim C2, counterexample: on the end-to-end sample object the
ready-replicas record's label pairs are `namespace=ns1, statefulset=web`,
not `namespace=ns1, name=web` as the claim states. -/
theorem claim2_counterexample :
    ((statefulSetMetricFamilies [] []).getD 3 dummyFamilyGenerator).generateFunc
        (DynObj.statefulSet sampleSts) =
      Except.ok { metrics := [{ labelKeys := ["namespace", "statefulset"],
                                labelValues := ["ns1", "web"], value := 3 }] } ∧
    (["namespace", "statefulset"] : List String).zip ["ns1", "web"] ≠
      [("namespace", "ns1"), ("name", "web")] :=
  ⟨rfl, by decide⟩

/-- Claim C2 (amended): for the sample object with both allow-lists empty,
the catalog has 10 families; the creation-timestamp family (index 0) emits
0 records, the desired-replicas family (index 6) emits 0 records, and the
ready-replicas family (index 3) emits exactly 1 record with label pairs
`namespace=ns1, statefulset=web` and value 3. -/
theorem claim2_end_to_end :
    (statefulSetMetricFamilies [] []).length = 10 ∧
    ((statefulSetMetricFamilies [] []).getD 0 dummyFamilyGenerator).name =
      "kube_statefulset_created" ∧
    ((statefulSetMetricFamilies [] []).getD 0 dummyFamilyGenerator).generateFunc
        (DynObj.statefulSet sampleSts) = Except.ok { metrics := [] } ∧
    ((statefulSetMetricFamilies [] []).getD 6 dummyFamilyGenerator).name =
      "kube_statefulset_replicas" ∧
    ((statefulSetMetricFamilies [] []).getD 6 dummyFamilyGenerator).generateFunc
        (DynObj.statefulSet sampleSts) = Except.ok { metrics := [] } ∧
    ((statefulSetMetricFamilies [] []).getD 3 dummyFamilyGenerator).name =
      "kube_statefulset_status_replicas_ready" ∧
    ((statefulSetMetricFamilies [] []).getD 3 dummyFamilyGenerator).generateFunc
        (DynObj.statefulSet sampleSts) =
      Except.ok { metrics := [{ labelKeys := ["namespace", "statefulset"],
                                labelValues := ["ns1", "web"], value := 3 }] } :=
  ⟨rfl, rfl, rfl, rfl, rfl, rfl, rfl⟩

/-- Claim C3: the desired-replica-count extractor emits 0 records when
`Spec.Replicas` is nil and exactly 1 record with value `*Spec.Replicas`
otherwise; no sentinel-valued record is emitted for the absent case. -/
theorem claim3_desired_replicas :
    ∀ (s : StatefulSet) (fam : Family),
      kubeStatefulsetReplicas.generateFunc (DynObj.statefulSet s) = Except.ok fam →
      (s.spec.replicas = none → fam.metrics = []) ∧
      (∀ r : Int, s.spec.replicas = some r →
        fam.metrics =
          [{ labelKeys := ["namespace", "statefulset"],
             labelValues := [s.metadata.namespace', s.metadata.name],
             value := r }]) := by
  intro s fam h
  simp only [kubeStatefulsetReplicas, NewFamilyGenerator,
    wrapStatefulSetFunc_statefulSet, Except.ok.injEq] at h
  subst h
  constructor
  · intro hr
    simp [hr]
  · intro r hr
    simp [hr, descStatefulSetLabelsDefaultLabels]

/-- Claim C3 witness: the theorem applied to an object with
`spec.replicas = some 5`. -/
theorem claim3_desired_replicas_witness :
    ([{ labelKeys := ["namespace", "statefulset"],
        labelValues := ["prod", "db"], value := (5 : Int) }] : List Metric) =
      [{ labelKeys := ["namespace", "statefulset"],
         labelValues := ["prod", "db"], value := 5 }] :=
  (claim3_desired_replicas sampleSts2
    { metrics := [{ labelKeys := ["namespace", "statefulset"],
                    labelValues := ["prod", "db"], value := 5 }] }
    rfl).2 5 rfl

/-- Claim C4: each of the six status/generation counter extractors emits
exactly 1 record whose value equals the corresponding object field
(an always-present integer field, so an unset field is the zero value 0). -/
theorem claim4_status_counters (s : StatefulSet) :
    kubeStatefulsetStatusReplicas.generateFunc (DynObj.statefulSet s) =
      Except.ok { metrics := [{ labelKeys := ["namespace", "statefulset"],
                                labelValues := [s.metadata.namespace', s.metadata.name],
                                value := s.status.replicas }] } ∧
    kubeStatefulsetStatusReplicasCurrent.generateFunc (DynObj.statefulSet s) =
      Except.ok { metrics := [{ labelKeys := ["namespace", "statefulset"],
                                labelValues := [s.metadata.namespace', s.metadata.name],
                                value := s.status.currentReplicas }] } ∧
    kubeStatefulsetStatusReplicasReady.generateFunc (DynObj.statefulSet s) =
      Except.ok { metrics := [{ labelKeys := ["namespace", "statefulset"],
                                labelValues := [s.metadata.namespace', s.metadata.name],
                                value := s.status.readyReplicas }] } ∧
    kubeStatefulsetStatusReplicasUpdated.generateFunc (DynObj.statefulSet s) =
      Except.ok { metrics := [{ labelKeys := ["namespace", "statefulset"],
                                labelValues := [s.metadata.namespace', s.metadata.name],
                                value := s.status.updatedReplicas }] } ∧
    kubeStatefulsetStatusObservedGeneration.generateFunc (DynObj.statefulSet s) =
      Except.ok { metrics := [{ labelKeys := ["namespace", "statefulset"],
                                labelValues := [s.metadata.namespace', s.metadata.name],
                                value := s.status.observedGeneration }] } ∧
    kubeStatefulsetMetadataGeneration.generateFunc (DynObj.statefulSet s) =
      Except.ok { metrics := [{ labelKeys := ["namespace", "statefulset"],
                                labelValues := [s.metadata.namespace', s.metadata.name],
                                value := s.metadata.generation }] } :=
  ⟨rfl, rfl, rfl, rfl, rfl, rfl⟩

/-- Claim C5: each revision extractor emits exactly 1 record whose label
keys include `revision` paired positionally with the revision string, with
numeric value the constant 1 (the revision string is never the value). -/
theorem claim5_revisions (s : StatefulSet) :
    kubeStatefulsetStatusCurrentRevision.generateFunc (DynObj.statefulSet s) =
      Except.ok { metrics :=
        [{ labelKeys := ["namespace", "statefulset", "revision"],
           labelValues := [s.metadata.namespace', s.metadata.name,
                           s.status.currentRevision],
           value := 1 }] } ∧
    kubeStatefulsetStatusUpdateRevision.generateFunc (DynObj.statefulSet s) =
      Except.ok { metrics :=
        [{ labelKeys := ["namespace", "statefulset", "revision"],
           labelValues := [s.metadata.namespace', s.metadata.name,
                           s.status.updateRevision],
           value := 1 }] } :=
  ⟨rfl, rfl⟩

lemma statefulSetMetricFamilies_names (l a : List String) :
    (statefulSetMetricFamilies l a).map FamilyGenerator.name =
      ["kube_statefulset_created",
       "kube_statefulset_status_replicas",
       "kube_statefulset_status_replicas_current",
       "kube_statefulset_status_replicas_ready",
       "kube_statefulset_status_replicas_updated",
       "kube_statefulset_status_observed_generation",
       "kube_statefulset_replicas",
       "kube_statefulset_metadata_generation",
       "kube_statefulset_status_current_revision",
       "kube_statefulset_status_update_revision"]
      ++ (if l.length > 0 then [descStatefulSetLabelsName] else [])
      ++ (if a.length > 0 then ["kube_statefulset_annotations"] else []) := by
  rcases l with _ | ⟨x, xs⟩ <;> rcases a with _ | ⟨y, ys⟩ <;>
    simp [statefulSetMetricFamilies, kubeStatefulsetCreated,
      kubeStatefulsetStatusReplicas, kubeStatefulsetStatusReplicasCurrent,
      kubeStatefulsetStatusReplicasReady, kubeStatefulsetStatusReplicasUpdated,
      kubeStatefulsetStatusObservedGeneration, kubeStatefulsetReplicas,
      kubeStatefulsetMetadataGeneration, kubeStatefulsetStatusCurrentRevision,
      kubeStatefulsetStatusUpdateRevision, kubeStatefulsetLabels,
      kubeStatefulsetAnnotations, NewFamilyGenerator, descStatefulSetLabelsName]

/-- Claim C6: the labels (resp. annotations) family is in the catalog iff
the label (resp. annotation) allow-list is non-empty; when present it emits,
for each object, exactly 1 record with value 1 whose extra labels beyond the
identity pair are the allow-list keys in allow-list order, paired with the
object's map values (empty string when absent). The Label Composer is
modelled from the spec (section 4.4), as its code is outside this file. -/
theorem claim6_allowlist_families :
    ∀ (l a : List String),
      (descStatefulSetLabelsName ∈
          (statefulSetMetricFamilies l a).map FamilyGenerator.name ↔ l ≠ []) ∧
      ("kube_statefulset_annotations" ∈
          (statefulSetMetricFamilies l a).map FamilyGenerator.name ↔ a ≠ []) ∧
      (l ≠ [] → kubeStatefulsetLabels l ∈ statefulSetMetricFamilies l a) ∧
      (a ≠ [] → kubeStatefulsetAnnotations a ∈ statefulSetMetricFamilies l a) ∧
      (∀ (s : StatefulSet) (fam : Family),
        (kubeStatefulsetLabels l).generateFunc (DynObj.statefulSet s) =
          Except.ok fam →
        fam.metrics =
          [{ labelKeys := descStatefulSetLabelsDefaultLabels ++ l,
             labelValues := [s.metadata.namespace', s.metadata.name]
               ++ l.map (mapGetD s.metadata.labels),
             value := 1 }]) ∧
      (∀ (s : StatefulSet) (fam : Family),
        (kubeStatefulsetAnnotations a).generateFunc (DynObj.statefulSet s) =
          Except.ok fam →
        fam.metrics =
          [{ labelKeys := descStatefulSetLabelsDefaultLabels ++ a,
             labelValues := [s.metadata.namespace', s.metadata.name]
               ++ a.map (mapGetD s.metadata.annotations),
             value := 1 }]) := by
  intro l a
  refine ⟨?_, ?_, ?_, ?_, ?_, ?_⟩
  · rw [statefulSetMetricFamilies_names]
    rcases l with _ | ⟨x, xs⟩ <;> rcases a with _ | ⟨y, ys⟩ <;>
      simp [descStatefulSetLabelsName]
  · rw [statefulSetMetricFamilies_names]
    rcases l with _ | ⟨x, xs⟩ <;> rcases a with _ | ⟨y, ys⟩ <;>
      simp [descStatefulSetLabelsName]
  · intro hl
    rcases l with _ | ⟨x, xs⟩
    · exact absurd rfl hl
    · rcases a with _ | ⟨y, ys⟩ <;> simp [statefulSetMetricFamilies]
  · intro ha
    rcases a with _ | ⟨y, ys⟩
    · exact absurd rfl ha
    · rcases l with _ | ⟨x, xs⟩ <;> simp [statefulSetMetricFamilies]
  · intro s fam h
    simp only [kubeStatefulsetLabels, NewFamilyGenerator,
      wrapStatefulSetFunc_statefulSet, Except.ok.injEq] at h
    subst h
    simp [createLabelKeysValues]
  · intro s fam h
    simp only [kubeStatefulsetAnnotations, NewFamilyGenerator,
      wrapStatefulSetFunc_statefulSet, Except.ok.injEq] at h
    subst h
    simp [createAnnotationKeysValues]

/-- Claim C6 witness: the content part applied with allow-list `[a, c]` to
the object with labels `{a:1, b:2, c:3}`: the emitted record carries keys
`[a, c]` and values `[1, 3]` beyond the identity pair; `b` is dropped. -/
theorem claim6_allowlist_families_witness :
    ([{ labelKeys := ["namespace", "statefulset", "a", "c"],
        labelValues := ["ns1", "web", "1", "3"],
        value := (1 : Int) }] : List Metric) =
      [{ labelKeys := ["namespace", "statefulset", "a", "c"],
         labelValues := ["ns1", "web", "1", "3"], value := 1 }] :=
  (claim6_allowlist_families ["a", "c"] []).2.2.2.2.1 sampleSts3
    { metrics := [{ labelKeys := ["namespace", "statefulset", "a", "c"],
                    labelValues := ["ns1", "web", "1", "3"], value := 1 }] }
    rfl

/-- Claim C7: for every family in the catalog and every record emitted on
any StatefulSet object, the label-key and label-value sequences have equal
length. -/
theorem claim7_parallel_label_arrays :
    ∀ (l a : List String), ∀ g ∈ statefulSetMetricFamilies l a,
    ∀ (s : StatefulSet) (fam : Family),
      g.generateFunc (DynObj.statefulSet s) = Except.ok fam →
      ∀ m ∈ fam.metrics, m.labelKeys.length = m.labelValues.length := by
  intro l a g hg s fam h
  rcases hts : s.metadata.creationTimestamp with _ | ts <;>
  rcases hrep : s.spec.replicas with _ | r <;>
  rcases mem_statefulSetMetricFamilies hg with
    rfl | rfl | rfl | rfl | rfl | rfl | rfl | rfl | rfl | rfl | rfl | rfl <;>
  · simp only [kubeStatefulsetCreated, kubeStatefulsetStatusReplicas,
      kubeStatefulsetStatusReplicasCurrent, kubeStatefulsetStatusReplicasReady,
      kubeStatefulsetStatusReplicasUpdated, kubeStatefulsetStatusObservedGeneration,
      kubeStatefulsetReplicas, kubeStatefulsetMetadataGeneration,
      kubeStatefulsetStatusCurrentRevision, kubeStatefulsetStatusUpdateRevision,
      kubeStatefulsetLabels, kubeStatefulsetAnnotations,
      NewFamilyGenerator, wrapStatefulSetFunc_statefulSet, hts, hrep,
      Except.ok.injEq] at h
    subst h
    intro m hm
    simp [createLabelKeysValues, createAnnotationKeysValues,
      descStatefulSetLabelsDefaultLabels] at hm <;>
    simp [hm, createLabelKeysValues, createAnnotationKeysValues,
      descStatefulSetLabelsDefaultLabels]

/-- Claim C7 witness: the theorem applied to the labels family with
allow-list `[a, c]` on the labelled sample object. -/
theorem claim7_parallel_label_arrays_witness :
    (["namespace", "statefulset", "a", "c"] : List String).length =
      (["ns1", "web", "1", "3"] : List String).length :=
  claim7_parallel_label_arrays ["a", "c"] [] (kubeStatefulsetLabels ["a", "c"])
    (by simp [statefulSetMetricFamilies]) sampleSts3
    { metrics := [{ labelKeys := ["namespace", "statefulset", "a", "c"],
                    labelValues := ["ns1", "web", "1", "3"], value := 1 }] }
    rfl
    { labelKeys := ["namespace", "statefulset", "a", "c"],
      labelValues := ["ns1", "web", "1", "3"], value := 1 }
    (by simp)

/-- Claim C8, counterexample: building the catalog with the malformed
allow-list `["namespace", "namespace"]` (duplicate keys, both colliding with
the reserved identity label `namespace`) does not fail: the builder returns
an 11-family catalog whose labels family emits, at runtime, a record with
duplicated label keys. -/
theorem claim8_counterexample :
    (statefulSetMetricFamilies ["namespace", "namespace"] []).length = 11 ∧
    ((statefulSetMetricFamilies ["namespace", "namespace"] []).getD 10
        dummyFamilyGenerator).name = descStatefulSetLabelsName ∧
    ((statefulSetMetricFamilies ["namespace", "namespace"] []).getD 10
        dummyFamilyGenerator).generateFunc (DynObj.statefulSet sampleSts) =
      Except.ok { metrics :=
        [{ labelKeys := ["namespace", "statefulset", "namespace", "namespace"],
           labelValues := ["ns1", "web", "", ""], value := 1 }] } ∧
    ¬ (["namespace", "statefulset", "namespace", "namespace"] :
        List String).Nodup :=
  ⟨rfl, rfl, rfl, by decide⟩

/-- Claim C8 (amended): the catalog builder performs no configuration
validation and cannot fail: for any allow-lists, including ones with
duplicate keys or keys colliding with the reserved identity label names, it
returns a catalog of 10 base families plus the conditional ones; a
colliding allow-list key flows through to every object's record, which then
carries a duplicated label key at extraction time. -/
theorem claim8_no_eager_validation :
    (∀ (l a : List String),
      (statefulSetMetricFamilies l a).length =
        10 + (if l.length > 0 then 1 else 0) +
          (if a.length > 0 then 1 else 0)) ∧
    (∀ (s : StatefulSet) (fam : Family),
      (kubeStatefulsetLabels ["namespace"]).generateFunc
          (DynObj.statefulSet s) = Except.ok fam →
      ∀ m ∈ fam.metrics, ¬ m.labelKeys.Nodup) := by
  constructor
  · intro l a
    rcases l with _ | ⟨x, xs⟩ <;> rcases a with _ | ⟨y, ys⟩ <;>
      simp [statefulSetMetricFamilies]
  · intro s fam h
    simp only [kubeStatefulsetLabels, NewFamilyGenerator,
      wrapStatefulSetFunc_statefulSet, Except.ok.injEq] at h
    subst h
    intro m hm
    simp [createLabelKeysValues, descStatefulSetLabelsDefaultLabels] at hm
    simp [hm, createLabelKeysValues, descStatefulSetLabelsDefaultLabels]

/-- Claim C8 witness: the amended theorem's runtime-collision part applied
to the sample object. -/
theorem claim8_no_eager_validation_witness :
    ¬ (["namespace", "statefulset", "namespace"] : List String).Nodup :=
  claim8_no_eager_validation.2 sampleSts
    { metrics := [{ labelKeys := ["namespace", "statefulset", "namespace"],
                    labelValues := ["ns1", "web", ""], value := 1 }] }
    rfl
    { labelKeys := ["namespace", "statefulset", "namespace"],
      labelValues := ["ns1", "web", ""], value := 1 }
    (by simp)

/-- Claim C9: invoking the same wrapped extractor from the catalog twice on
the same unchanged object yields identical results: equal record counts,
equal label keys, equal label values and equal numeric values. -/
theorem claim9_idempotent :
    ∀ (l a : List String), ∀ g ∈ statefulSetMetricFamilies l a,
    ∀ (obj : DynObj) (fam1 fam2 : Family),
      g.generateFunc obj = Except.ok fam1 →
      g.generateFunc obj = Except.ok fam2 →
      fam1.metrics.length = fam2.metrics.length ∧
      fam1.metrics.map Metric.labelKeys = fam2.metrics.map Metric.labelKeys ∧
      fam1.metrics.map Metric.labelValues = fam2.metrics.map Metric.labelValues ∧
      fam1.metrics.map Metric.value = fam2.metrics.map Metric.value := by
  intro l a g _ obj fam1 fam2 h1 h2
  have hf : fam1 = fam2 := Except.ok.inj (h1.symm.trans h2)
  subst hf
  exact ⟨rfl, rfl, rfl, rfl⟩

/-- Claim C9 witness: two invocations of the ready-replicas family on the
sample object. -/
theorem claim9_idempotent_witness :
    ([{ labelKeys := ["namespace", "statefulset"],
        labelValues := ["ns1", "web"], value := (3 : Int) }] : List Metric).length =
      ([{ labelKeys := ["namespace", "statefulset"],
          labelValues := ["ns1", "web"], value := (3 : Int) }] : List Metric).length ∧
    ([["namespace", "statefulset"]] : List (List String)) =
      [["namespace", "statefulset"]] ∧
    ([["ns1", "web"]] : List (List String)) = [["ns1", "web"]] ∧
    ([3] : List Int) = [3] :=
  claim9_idempotent [] [] kubeStatefulsetStatusReplicasReady
    (by simp [statefulSetMetricFamilies]) (DynObj.statefulSet sampleSts)
    { metrics := [{ labelKeys := ["namespace", "statefulset"],
                    labelValues := ["ns1", "web"], value := 3 }] }
    { metrics := [{ labelKeys := ["namespace", "statefulset"],
                    labelValues := ["ns1", "web"], value := 3 }] }
    rfl rfl

/-- Claim C10: the wrapped extractor performs an unchecked dynamic type
assertion: on any dynamic type other than StatefulSet it panics (modelled
as `Except.error`), and on every StatefulSet it returns normally. -/
theorem claim10_unchecked_type_assertion :
    (∀ (f : StatefulSet → Family) (t : String),
      wrapStatefulSetFunc f (DynObj.other t) =
        Except.error ("interface conversion: interface \x7b\x7d is " ++ t ++
          ", not *v1.StatefulSet")) ∧
    (∀ (f : StatefulSet → Family) (s : StatefulSet), ∃ fam : Family,
      wrapStatefulSetFunc f (DynObj.statefulSet s) = Except.ok fam) := by
  constructor
  · intro f t
    rfl
  · intro f s
    exact ⟨_, rfl⟩

end KSM
